import Mathlib

/-
  Shallow embedding of the badgeth "the-graph-indexer-badges" subgraph core:
  the Indexer accounting engine (src/models/indexer.ts) and the
  DelegatedStake identity record (src/models/delegatedStake.ts).

  Modelling conventions:
  * graph-ts `BigDecimal` is embedded as `ℚ` (exact decimal arithmetic),
    `BigInt` as `ℤ`, addresses and entity ids as `String`.
  * The persistence layer (`Entity.load` / `Entity.save`) is embedded by
    passing the load result (`Option` of the entity) into constructors and
    carrying the to-be-saved entity inside the class value; "persisted X"
    in the theorems below is the saved entity's field X.
  * AssemblyScript nullable entity fields are `Option` in Lean; the
    forced cast `as BigDecimal` on a possibly-null field is fallible and
    makes the enclosing handler return `Option`.
-/

namespace BadgethIndexer

/-- An Ethereum block header as consumed by the handlers. -/
structure Block where
  number : Int
  timestamp : Int
deriving Repr, DecidableEq

/-- Modelled from the spec: constants helper (`src/helpers/constants`, not under
src/): zero decimal. -/
def zeroBD : ℚ := 0

/-- Modelled from the spec: constants helper, the 16× delegation-capacity factor. -/
def sixteenBD : ℚ := 16

/-- Modelled from the spec: constants helper, integer one (initial delegation
pool share count). -/
def oneBI : Int := 1

/-- Modelled from the spec: constants helper, integer zero. -/
def zeroBI : Int := 0

/-- Modelled from the spec: token helper (`src/helpers/token`, not under src/):
"token amounts (raw integer, base-unit scaled — converted to decimal via a
fixed-point divisor)"; the divisor is the standard 10^18 base-unit scale. -/
def tokenAmountToDecimal (tokens : Int) : ℚ := (tokens : ℚ) / (10 : ℚ) ^ 18

/-- Modelled from the spec: fee-cut helper (`src/helpers/feeCut`, not under
src/): "fee-cut encodings (raw integer scaled to [0,1] via a fixed divisor)";
the divisor is the parts-per-million scale. -/
def feeCutToDecimalRatio (feeCut : Int) : ℚ := (feeCut : ℚ) / 1000000

/-- The generated `Indexer` entity (the persisted record): all fields written by
`src/models/indexer.ts`. Nullable schema fields are `Option`. -/
structure IndexerEntity where
  id : String
  createdAtTimestamp : Int
  ownStake : ℚ
  delegatedStake : ℚ
  allocatedStake : ℚ
  maximumDelegation : ℚ
  allocationRatio : ℚ
  delegationRatio : ℚ
  isOverDelegated : Bool
  delegationPoolShares : Option Int
  monthlyDelegatorRewardRate : ℚ
  indexingRewardCutRatio : Option ℚ
  queryFeeCutRatio : Option ℚ
  delegatorParameterCooldownBlock : Option Int
  lastSnapshot : Option String
deriving Repr, DecidableEq

/-- Modelled from the spec: the Snapshot Ledger (`src/models/indexerSnapshot`,
not under src/). It accumulates, for the current period, the net own-stake
delta, net delegated-stake delta, pool rewards and a parameter-change counter,
and answers `previousMonthRewards()` (the preceding period's pool rewards,
which depend on history outside this core and are therefore carried as a
plain value fixed at snapshot creation). -/
structure IndexerSnapshot where
  id : String
  ownStakeDelta : ℚ
  delegatedStakeDelta : ℚ
  poolRewards : ℚ
  parametersChangeCount : Nat
  previousMonthRewardsVal : ℚ
deriving Repr, DecidableEq

/-- Modelled from the spec: snapshot creation for an indexer entity at the
current block; period-level aggregates start at zero. -/
def mkIndexerSnapshot (e : IndexerEntity) (b : Block) (prevMonthRewards : ℚ) :
    IndexerSnapshot :=
  { id := e.id ++ "-" ++ toString b.timestamp
    ownStakeDelta := zeroBD
    delegatedStakeDelta := zeroBD
    poolRewards := zeroBD
    parametersChangeCount := 0
    previousMonthRewardsVal := prevMonthRewards }

/-- Modelled from the spec: `IndexerSnapshot.updateOwnStake` records an
own-stake delta in the period aggregate. -/
def IndexerSnapshot.updateOwnStake (s : IndexerSnapshot) (delta : ℚ) :
    IndexerSnapshot :=
  { s with ownStakeDelta := s.ownStakeDelta + delta }

/-- Modelled from the spec: `IndexerSnapshot.updateDelegatedStake` records a
delegated-stake delta in the period aggregate. -/
def IndexerSnapshot.updateDelegatedStake (s : IndexerSnapshot) (delta : ℚ) :
    IndexerSnapshot :=
  { s with delegatedStakeDelta := s.delegatedStakeDelta + delta }

/-- Modelled from the spec: `IndexerSnapshot.addDelegationPoolIndexingRewards`
records rewards routed to the delegation pool. -/
def IndexerSnapshot.addDelegationPoolIndexingRewards (s : IndexerSnapshot)
    (rewards : ℚ) : IndexerSnapshot :=
  { s with poolRewards := s.poolRewards + rewards }

/-- Modelled from the spec: `IndexerSnapshot.incrementParametersChangesCount`. -/
def IndexerSnapshot.incrementParametersChangesCount (s : IndexerSnapshot) :
    IndexerSnapshot :=
  { s with parametersChangeCount := s.parametersChangeCount + 1 }

/-- Modelled from the spec: `IndexerSnapshot.previousMonthRewards()` — the pool
rewards recorded in the immediately preceding period. -/
def IndexerSnapshot.previousMonthRewards (s : IndexerSnapshot) : ℚ :=
  s.previousMonthRewardsVal

/-- The in-memory `Indexer` class (src/models/indexer.ts lines 44-75): the
entity, the current block, the (lazily created, here eagerly materialised)
snapshot, and the three decimal caches captured at construction. -/
structure Indexer where
  indexerEntity : IndexerEntity
  currentBlock : Block
  snapshot : IndexerSnapshot
  cachedDelegatedStake : ℚ
  cachedOwnStake : ℚ
  cachedAllocatedStake : ℚ
deriving Repr, DecidableEq

/-- The fresh entity built by the constructor when `load` returns null
(src/models/indexer.ts lines 56-68). Fields the constructor does not assign
keep the schema's null default. -/
def freshIndexerEntity (address : String) (b : Block) : IndexerEntity :=
  { id := address
    createdAtTimestamp := b.timestamp
    ownStake := zeroBD
    delegatedStake := zeroBD
    allocatedStake := zeroBD
    maximumDelegation := zeroBD
    allocationRatio := zeroBD
    delegationRatio := zeroBD
    isOverDelegated := false
    delegationPoolShares := some oneBI
    monthlyDelegatorRewardRate := zeroBD
    indexingRewardCutRatio := none
    queryFeeCutRatio := none
    delegatorParameterCooldownBlock := none
    lastSnapshot := none }

/-- The `Indexer` constructor (src/models/indexer.ts lines 54-75): load the
entity by address (the load result is passed in), create it if absent, and
capture the three decimal caches from the entity. `prevMonthRewards` feeds the
spec-modelled snapshot (see `IndexerSnapshot`). -/
def Indexer.construct (loaded : Option IndexerEntity) (address : String)
    (b : Block) (prevMonthRewards : ℚ) : Indexer :=
  let e := match loaded with
    | none => freshIndexerEntity address b
    | some e => e
  { indexerEntity := e
    currentBlock := b
    snapshot := mkIndexerSnapshot e b prevMonthRewards
    cachedDelegatedStake := e.delegatedStake
    cachedOwnStake := e.ownStake
    cachedAllocatedStake := e.allocatedStake }

/-- Getter `ownStake` (lines 84-86): returns the construction-time cache. -/
def Indexer.ownStake (i : Indexer) : ℚ := i.cachedOwnStake

/-- Getter `delegatedStake` (lines 89-91): returns the construction-time cache. -/
def Indexer.delegatedStake (i : Indexer) : ℚ := i.cachedDelegatedStake

/-- Getter `delegationPoolShares` (lines 94-99): reads the entity field, null
mapping to zero. -/
def Indexer.delegationPoolShares (i : Indexer) : Int :=
  match i.indexerEntity.delegationPoolShares with
  | none => zeroBI
  | some n => n

/-- Getter `allocatedStake` (lines 102-104): returns the construction-time cache. -/
def Indexer.allocatedStake (i : Indexer) : ℚ := i.cachedAllocatedStake

/-- Getter `maximumDelegation` (lines 107-109): `ownStake × 16`. -/
def Indexer.maximumDelegation (i : Indexer) : ℚ := i.ownStake * sixteenBD

/-- Getter `isOverDelegated` (lines 112-114): `delegatedStake > maximumDelegation`. -/
def Indexer.isOverDelegated (i : Indexer) : Bool :=
  decide (i.delegatedStake > i.maximumDelegation)

/-- Getter `allocationRatio` (lines 117-132): capacity is ownStake plus the
capped (if over-delegated) or actual delegated stake; zero capacity yields
zero, otherwise `allocatedStake / capacity`. -/
def Indexer.allocationRatio (i : Indexer) : ℚ :=
  let allocationCapacity := i.ownStake
  let allocationCapacity :=
    if i.isOverDelegated then allocationCapacity + i.maximumDelegation
    else allocationCapacity + i.delegatedStake
  if allocationCapacity = zeroBD then zeroBD
  else i.allocatedStake / allocationCapacity

/-- Getter `delegationRatio` (lines 135-140): zero when ownStake is zero, else
`delegatedStake / maximumDelegation`. -/
def Indexer.delegationRatio (i : Indexer) : ℚ :=
  if i.ownStake = zeroBD then zeroBD
  else i.delegatedStake / i.maximumDelegation

/-- Getter `monthlyDelegatorRewardRate` (lines 150-155): zero when
delegatedStake is zero, else previous-month rewards over delegated stake. -/
def Indexer.monthlyDelegatorRewardRate (i : Indexer) : ℚ :=
  if i.delegatedStake = zeroBD then zeroBD
  else i.snapshot.previousMonthRewards / i.delegatedStake

/-- Mutator `updateOwnStake` (lines 158-170): record the delta in the
snapshot, persist `ownStake + delta` and re-persist the derived fields, all
computed through the getters (which read the construction-time caches). -/
def Indexer.updateOwnStake (i : Indexer) (ownStakeDelta : ℚ) : Indexer :=
  let snap := i.snapshot.updateOwnStake ownStakeDelta
  let i' : Indexer := { i with snapshot := snap }
  { i' with indexerEntity := { i'.indexerEntity with
      lastSnapshot := some snap.id
      ownStake := i'.ownStake + ownStakeDelta
      maximumDelegation := i'.maximumDelegation
      isOverDelegated := i'.isOverDelegated
      allocationRatio := i'.allocationRatio
      delegationRatio := i'.delegationRatio } }

/-- Mutator `updateDelegatedStake` (lines 173-186): record the stake delta in
the snapshot, persist `delegatedStake + stakeDelta` and
`delegationPoolShares + sharesDelta`, and re-persist the derived fields. -/
def Indexer.updateDelegatedStake (i : Indexer) (delegatedStakeDelta : ℚ)
    (delegationPoolSharesDelta : Int) : Indexer :=
  let snap := i.snapshot.updateDelegatedStake delegatedStakeDelta
  let i' : Indexer := { i with snapshot := snap }
  { i' with indexerEntity := { i'.indexerEntity with
      lastSnapshot := some snap.id
      delegatedStake := i'.delegatedStake + delegatedStakeDelta
      delegationPoolShares := some (i'.delegationPoolShares + delegationPoolSharesDelta)
      isOverDelegated := i'.isOverDelegated
      allocationRatio := i'.allocationRatio
      delegationRatio := i'.delegationRatio
      monthlyDelegatorRewardRate := i'.monthlyDelegatorRewardRate } }

/-- Mutator `updateAllocatedStake` (lines 189-193): persist
`allocatedStake + delta` and re-persist `allocationRatio` only. -/
def Indexer.updateAllocatedStake (i : Indexer) (newAllocatedStakeDelta : ℚ) :
    Indexer :=
  { i with indexerEntity := { i.indexerEntity with
      allocatedStake := i.allocatedStake + newAllocatedStakeDelta
      allocationRatio := i.allocationRatio } }

/-- Parameters of a `StakeDeposited` event. -/
structure StakeDepositedEvent where
  tokens : Int
deriving Repr, DecidableEq

/-- Parameters of a `StakeLocked` event. -/
structure StakeLockedEvent where
  tokens : Int
deriving Repr, DecidableEq

/-- Parameters of a `StakeDelegated` event. -/
structure StakeDelegatedEvent where
  tokens : Int
  shares : Int
deriving Repr, DecidableEq

/-- Parameters of a `RewardsAssigned` event. -/
structure RewardsAssignedEvent where
  amount : Int
deriving Repr, DecidableEq

/-- Parameters (and block number) of a `DelegationParametersUpdated` event. -/
structure DelegationParametersUpdatedEvent where
  indexingRewardCut : Int
  queryFeeCut : Int
  cooldownBlocks : Int
  blockNumber : Int
deriving Repr, DecidableEq

/-- Handler `handleStakeDeposited` (lines 197-201): add the decimal-converted
deposit to own stake. -/
def Indexer.handleStakeDeposited (i : Indexer) (event : StakeDepositedEvent) :
    Indexer :=
  i.updateOwnStake (tokenAmountToDecimal event.tokens)

/-- Handler `handleStakeLocked` (lines 204-207): subtract the decimal-converted
locked amount from own stake. -/
def Indexer.handleStakeLocked (i : Indexer) (event : StakeLockedEvent) :
    Indexer :=
  i.updateOwnStake (-(tokenAmountToDecimal event.tokens))

/-- Handler `handleStakeDelegated` (lines 220-227): add the delegated amount
and the minted shares. -/
def Indexer.handleStakeDelegated (i : Indexer) (event : StakeDelegatedEvent) :
    Indexer :=
  i.updateDelegatedStake (tokenAmountToDecimal event.tokens) event.shares

/-- The indexer's side of the reward split (lines 264-276): the whole reward
when nothing is delegated, else `R × cut`. -/
def indexerShareOfReward (delegatedStake cutRatio r : ℚ) : ℚ :=
  if delegatedStake = zeroBD then r else r * cutRatio

/-- The delegators' side of the reward split (lines 264-276): zero when nothing
is delegated, else `R - R × cut`. -/
def delegatorShareOfReward (delegatedStake cutRatio r : ℚ) : ℚ :=
  if delegatedStake = zeroBD then zeroBD else r - r * cutRatio

/-- Handler `handleRewardsAssigned` (lines 261-286): split the reward by the
indexing-reward cut (everything to the indexer when nothing is delegated),
record the delegator share in the snapshot's pool-reward aggregate, and
compound it into the delegated stake with a zero share delta. The split reads
`indexingRewardCutRatio` through a forced non-null cast, so the handler is
fallible when that field is null and delegated stake is nonzero. -/
def Indexer.handleRewardsAssigned (i : Indexer) (event : RewardsAssignedEvent) :
    Option Indexer :=
  let rewardedIndexingTokens := tokenAmountToDecimal event.amount
  if i.delegatedStake = zeroBD then
    let delegatorIndexingRewards := zeroBD
    let i' : Indexer :=
      { i with snapshot :=
          i.snapshot.addDelegationPoolIndexingRewards delegatorIndexingRewards }
    some (i'.updateDelegatedStake delegatorIndexingRewards zeroBI)
  else
    match i.indexerEntity.indexingRewardCutRatio with
    | none => none
    | some cutRatio =>
      let delegatorIndexingRewards :=
        delegatorShareOfReward i.delegatedStake cutRatio rewardedIndexingTokens
      let i' : Indexer :=
        { i with snapshot :=
            i.snapshot.addDelegationPoolIndexingRewards delegatorIndexingRewards }
      some (i'.updateDelegatedStake delegatorIndexingRewards zeroBI)

/-- Handler `handleDelegationParametersUpdated` (lines 303-324): persist the
new cut ratios, count the parameter change in the snapshot, and set the
cooldown block to `event.block.number + cooldownBlocks`, or null when
`cooldownBlocks` is zero. (The appended `IndexerParameterUpdate` audit record
lives outside the indexer entity and is not modelled.) -/
def Indexer.handleDelegationParametersUpdated (i : Indexer)
    (event : DelegationParametersUpdatedEvent) : Indexer :=
  let newIndexingRewardCutRatio := feeCutToDecimalRatio event.indexingRewardCut
  let newQueryFeeCutRatio := feeCutToDecimalRatio event.queryFeeCut
  { i with
    snapshot := i.snapshot.incrementParametersChangesCount
    indexerEntity := { i.indexerEntity with
      indexingRewardCutRatio := some newIndexingRewardCutRatio
      queryFeeCutRatio := some newQueryFeeCutRatio
      delegatorParameterCooldownBlock :=
        if event.cooldownBlocks = 0 then none
        else some (event.blockNumber + event.cooldownBlocks) } }

/-- A stake-deposited or stake-locked event, for event-sequence reasoning. -/
inductive StakeEvnt where
  | deposited (tokens : Int)
  | locked (tokens : Int)
deriving Repr, DecidableEq

/-- The signed decimal delta a deposit/lock event applies to own stake:
`+amount` for a deposit, `-amount` for a lock. -/
def StakeEvnt.signedDelta : StakeEvnt → ℚ
  | .deposited tokens => tokenAmountToDecimal tokens
  | .locked tokens => -(tokenAmountToDecimal tokens)

/-- One event-processing step as the host runs it: construct the `Indexer`
from the persisted entity, dispatch the handler, and take the saved entity. -/
def processStakeEvnt (b : Block) (prevMonthRewards : ℚ) (e : IndexerEntity)
    (ev : StakeEvnt) : IndexerEntity :=
  let i := Indexer.construct (some e) e.id b prevMonthRewards
  match ev with
  | .deposited tokens => (i.handleStakeDeposited { tokens := tokens }).indexerEntity
  | .locked tokens => (i.handleStakeLocked { tokens := tokens }).indexerEntity

/-- The `Delegator` entity, referenced by identity only. -/
structure DelegatorEntity where
  id : String
deriving Repr, DecidableEq

/-- The generated `DelegatedStake` entity (src/models/delegatedStake.ts). -/
structure DelegatedStakeEntity where
  id : String
  indexer : String
  delegator : String
  createdAtTimestamp : Int
deriving Repr, DecidableEq

/-- The in-memory `DelegatedStake` class (src/models/delegatedStake.ts
lines 9-24). -/
structure DelegatedStake where
  delegatedStakeEntity : DelegatedStakeEntity
  delegatorEntity : DelegatorEntity
  indexerEntity : IndexerEntity
  currentBlock : Block
deriving Repr, DecidableEq

/-- The `id` getter's key derivation (lines 40-50):
`indexer.id ++ "-" ++ delegator.id`. -/
def delegatedStakePairId (indexerId delegatorId : String) : String :=
  indexerId ++ "-" ++ delegatorId

/-- `_initializeDelegatedStakeEntity` (lines 26-37): load by the derived id
(the load result is passed in); when absent, create and save a record carrying
the derived id, both parent ids and the current block's timestamp; when
present, keep the stored record untouched (first-write-wins). -/
def initializeDelegatedStakeEntity (ie : IndexerEntity) (de : DelegatorEntity)
    (b : Block) (loaded : Option DelegatedStakeEntity) : DelegatedStakeEntity :=
  match loaded with
  | some e => e
  | none =>
    { id := delegatedStakePairId ie.id de.id
      indexer := ie.id
      delegator := de.id
      createdAtTimestamp := b.timestamp }

/-- The `DelegatedStake` constructor (lines 15-24). -/
def DelegatedStake.construct (ie : IndexerEntity) (de : DelegatorEntity)
    (b : Block) (loaded : Option DelegatedStakeEntity) : DelegatedStake :=
  { delegatedStakeEntity := initializeDelegatedStakeEntity ie de b loaded
    delegatorEntity := de
    indexerEntity := ie
    currentBlock := b }

/-- The `id` getter on the class (lines 40-50). -/
def DelegatedStake.id (ds : DelegatedStake) : String :=
  delegatedStakePairId ds.indexerEntity.id ds.delegatorEntity.id

/-- The `isCreatedThisBlock` getter (lines 52-57): the stored creation
timestamp equals the current block's timestamp. -/
def DelegatedStake.isCreatedThisBlock (ds : DelegatedStake) : Bool :=
  decide (ds.delegatedStakeEntity.createdAtTimestamp = ds.currentBlock.timestamp)

/-! Concrete sample states used to evaluate the development on closed inputs. -/

/-- A sample block for concrete evaluations. -/
def sampleBlock : Block := { number := 100, timestamp := 1000 }

/-- A sample indexer address. -/
def sampleAddress : String := "indexer-one"

/-- A freshly created indexer (no persisted entity). -/
def sampleFreshIndexer : Indexer := Indexer.construct none sampleAddress sampleBlock 0

/-- A persisted entity with 4 delegated, 2 pool shares and a 1/5 indexing cut. -/
def sampleDelegatedEntity : IndexerEntity :=
  { freshIndexerEntity sampleAddress sampleBlock with
      delegatedStake := 4
      delegationPoolShares := some 2
      indexingRewardCutRatio := some (1 / 5) }

/-- A persisted entity with own stake 2, delegated 4 and allocated 3. -/
def sampleBalancedEntity : IndexerEntity :=
  { freshIndexerEntity sampleAddress sampleBlock with
      ownStake := 2
      delegatedStake := 4
      allocatedStake := 3 }

/-- A persisted entity with own stake 1 and delegated 32 (over-delegated). -/
def sampleOverDelegatedEntity : IndexerEntity :=
  { freshIndexerEntity sampleAddress sampleBlock with
      ownStake := 1
      delegatedStake := 32 }

/-! Helper lemmas shared by the claim theorems (not themselves claim
theorems). -/

/-- Unfolding lemma: the entity persisted by `updateOwnStake`. -/
theorem Indexer.updateOwnStake_indexerEntity (i : Indexer) (d : ℚ) :
    (i.updateOwnStake d).indexerEntity =
      { i.indexerEntity with
          lastSnapshot := some (i.snapshot.updateOwnStake d).id
          ownStake := i.ownStake + d
          maximumDelegation := i.maximumDelegation
          isOverDelegated := i.isOverDelegated
          allocationRatio := i.allocationRatio
          delegationRatio := i.delegationRatio } := rfl

/-- Unfolding lemma: the entity persisted by `updateDelegatedStake`. -/
theorem Indexer.updateDelegatedStake_indexerEntity (i : Indexer) (d : ℚ) (n : Int) :
    (i.updateDelegatedStake d n).indexerEntity =
      { i.indexerEntity with
          lastSnapshot := some (i.snapshot.updateDelegatedStake d).id
          delegatedStake := i.delegatedStake + d
          delegationPoolShares := some (i.delegationPoolShares + n)
          isOverDelegated := i.isOverDelegated
          allocationRatio := i.allocationRatio
          delegationRatio := i.delegationRatio
          monthlyDelegatorRewardRate := i.monthlyDelegatorRewardRate } := rfl

/-- Mutators never touch the caches the getters read. -/
theorem Indexer.updateOwnStake_cachedOwnStake (i : Indexer) (d : ℚ) :
    (i.updateOwnStake d).cachedOwnStake = i.cachedOwnStake := rfl

/-- Constructing from a persisted entity captures its stake fields in the
caches. -/
theorem Indexer.construct_some_caches (e : IndexerEntity) (adr : String)
    (b : Block) (pr : ℚ) :
    (Indexer.construct (some e) adr b pr).cachedOwnStake = e.ownStake ∧
    (Indexer.construct (some e) adr b pr).cachedDelegatedStake = e.delegatedStake ∧
    (Indexer.construct (some e) adr b pr).cachedAllocatedStake = e.allocatedStake ∧
    (Indexer.construct (some e) adr b pr).indexerEntity = e := by
  refine ⟨rfl, rfl, rfl, rfl⟩

/-- Single-step form of the own-stake ledger: one deposit/lock event applied
to a persisted entity adds exactly its signed delta. -/
theorem processStakeEvnt_ownStake (b : Block) (pr : ℚ) (e : IndexerEntity)
    (ev : StakeEvnt) :
    (processStakeEvnt b pr e ev).ownStake = e.ownStake + ev.signedDelta := by
  cases ev <;>
    simp [processStakeEvnt, StakeEvnt.signedDelta, Indexer.handleStakeDeposited,
      Indexer.handleStakeLocked, Indexer.updateOwnStake_indexerEntity,
      Indexer.ownStake, Indexer.construct]

/-- C1. The claim states that after every mutator the persisted
`maximumDelegation` equals the persisted `ownStake × 16`. The code violates
it: `updateOwnStake` persists `ownStake = cache + delta` but persists
`maximumDelegation = cache × 16` through the getters, which read the
construction-time cache. On a fresh indexer (all-zero state),
`updateOwnStake 100` persists `ownStake = 100` yet `maximumDelegation = 0`,
not `1600`. -/
theorem updateOwnStake_persists_stale_maximumDelegation :
    (sampleFreshIndexer.updateOwnStake 100).indexerEntity.ownStake = 100 ∧
    (sampleFreshIndexer.updateOwnStake 100).indexerEntity.maximumDelegation = 0 ∧
    (sampleFreshIndexer.updateOwnStake 100).indexerEntity.maximumDelegation ≠
      (sampleFreshIndexer.updateOwnStake 100).indexerEntity.ownStake * 16 := by
  refine ⟨?_, ?_, ?_⟩ <;>
    norm_num [sampleFreshIndexer, Indexer.construct, freshIndexerEntity,
      Indexer.updateOwnStake_indexerEntity, Indexer.ownStake,
      Indexer.maximumDelegation, zeroBD, sixteenBD]

/-- C2. The claim states that after every mutator the persisted
`isOverDelegated` equals (persisted `delegatedStake` > persisted
`maximumDelegation`). The code violates it: `updateDelegatedStake` persists
`delegatedStake = cache + delta` but persists `isOverDelegated` computed from
the construction-time cached delegated stake. On a fresh indexer,
`updateDelegatedStake 5 0` persists `delegatedStake = 5 >
maximumDelegation = 0` yet `isOverDelegated = false`. -/
theorem updateDelegatedStake_persists_stale_isOverDelegated :
    (sampleFreshIndexer.updateDelegatedStake 5 0).indexerEntity.isOverDelegated = false ∧
    (sampleFreshIndexer.updateDelegatedStake 5 0).indexerEntity.delegatedStake >
      (sampleFreshIndexer.updateDelegatedStake 5 0).indexerEntity.maximumDelegation := by
  refine ⟨?_, ?_⟩ <;>
    norm_num [sampleFreshIndexer, Indexer.construct, freshIndexerEntity,
      Indexer.updateDelegatedStake_indexerEntity, Indexer.delegatedStake,
      Indexer.isOverDelegated, Indexer.ownStake, Indexer.maximumDelegation,
      zeroBD, sixteenBD]

/-- C4. For every sequence of stake-deposited and stake-locked events applied
to an indexer (each event loads the persisted entity, dispatches its handler,
and saves), the persisted `ownStake` equals its initial value plus the sum of
all signed deltas (`+amount` per deposit, `-amount` per lock); starting from a
fresh indexer the initial value is zero, so it equals the sum itself. -/
theorem ownStake_is_sum_of_signed_deltas (b : Block) (pr : ℚ)
    (evs : List StakeEvnt) (e : IndexerEntity) (adr : String) :
    (evs.foldl (processStakeEvnt b pr) e).ownStake =
      e.ownStake + (evs.map StakeEvnt.signedDelta).sum ∧
    (evs.foldl (processStakeEvnt b pr) (freshIndexerEntity adr b)).ownStake =
      (evs.map StakeEvnt.signedDelta).sum := by
  have main : ∀ (l : List StakeEvnt) (e0 : IndexerEntity),
      (l.foldl (processStakeEvnt b pr) e0).ownStake =
        e0.ownStake + (l.map StakeEvnt.signedDelta).sum := by
    intro l
    induction l with
    | nil => intro e0; simp
    | cons ev tl ih =>
      intro e0
      simp only [List.foldl_cons, List.map_cons, List.sum_cons, ih,
        processStakeEvnt_ownStake]
      ring
  refine ⟨main evs e, ?_⟩
  rw [main evs (freshIndexerEntity adr b)]
  simp [freshIndexerEntity, zeroBD]

/-- C5. The mutators do not change the in-memory getters `ownStake`,
`delegatedStake` and `allocatedStake` of the same instance: those getters
return the values captured at construction, each mutator persists
(construction-time cache + delta), and hence applying the same mutator twice
on one instance persists only the second delta added to the construction-time
base. -/
theorem mutators_preserve_cached_getters (i : Indexer) (d1 d2 s1 s2 a1 a2 : ℚ)
    (n1 n2 : Int) (e : IndexerEntity) (adr : String) (b : Block) (pr : ℚ) :
    ((i.updateOwnStake d1).ownStake = i.ownStake ∧
      (i.updateOwnStake d1).delegatedStake = i.delegatedStake ∧
      (i.updateOwnStake d1).allocatedStake = i.allocatedStake) ∧
    ((i.updateDelegatedStake s1 n1).ownStake = i.ownStake ∧
      (i.updateDelegatedStake s1 n1).delegatedStake = i.delegatedStake ∧
      (i.updateDelegatedStake s1 n1).allocatedStake = i.allocatedStake) ∧
    ((i.updateAllocatedStake a1).ownStake = i.ownStake ∧
      (i.updateAllocatedStake a1).delegatedStake = i.delegatedStake ∧
      (i.updateAllocatedStake a1).allocatedStake = i.allocatedStake) ∧
    ((Indexer.construct (some e) adr b pr).ownStake = e.ownStake ∧
      (Indexer.construct (some e) adr b pr).delegatedStake = e.delegatedStake ∧
      (Indexer.construct (some e) adr b pr).allocatedStake = e.allocatedStake) ∧
    ((i.updateOwnStake d1).updateOwnStake d2).indexerEntity.ownStake =
      i.ownStake + d2 ∧
    ((i.updateDelegatedStake s1 n1).updateDelegatedStake s2 n2).indexerEntity.delegatedStake =
      i.delegatedStake + s2 ∧
    ((i.updateAllocatedStake a1).updateAllocatedStake a2).indexerEntity.allocatedStake =
      i.allocatedStake + a2 := by
  refine ⟨⟨rfl, rfl, rfl⟩, ⟨rfl, rfl, rfl⟩, ⟨rfl, rfl, rfl⟩, ⟨rfl, rfl, rfl⟩,
    rfl, rfl, rfl⟩

/-- The allocation capacity as the spec words it:
`ownStake + (isOverDelegated ? maximumDelegation : delegatedStake)`. -/
def allocationCapacitySpec (i : Indexer) : ℚ :=
  i.ownStake + (if i.isOverDelegated then i.maximumDelegation else i.delegatedStake)

/-- C6. The `allocationRatio` getter computes the capacity
`ownStake + (isOverDelegated ? maximumDelegation : delegatedStake)`, returns 0
when the capacity is 0 — in particular when `ownStake = 0` and
`delegatedStake = 0`, with no division by zero — and `allocatedStake /
capacity` otherwise. -/
theorem allocationRatio_matches_spec (i : Indexer) :
    (allocationCapacitySpec i = 0 → i.allocationRatio = 0) ∧
    (allocationCapacitySpec i ≠ 0 →
      i.allocationRatio = i.allocatedStake / allocationCapacitySpec i) ∧
    (i.ownStake = 0 → i.delegatedStake = 0 → i.allocationRatio = 0) := by
  have key : i.allocationRatio =
      if allocationCapacitySpec i = 0 then 0
      else i.allocatedStake / allocationCapacitySpec i := by
    simp only [Indexer.allocationRatio, allocationCapacitySpec, zeroBD]
    by_cases hb : i.isOverDelegated = true <;> simp [hb]
  refine ⟨?_, ?_, ?_⟩
  · intro h
    simp [key, h]
  · intro h
    simp [key, h]
  · intro h1 h2
    have hcap : allocationCapacitySpec i = 0 := by
      simp [allocationCapacitySpec, Indexer.isOverDelegated,
        Indexer.maximumDelegation, h1, h2, sixteenBD]
    simp [key, hcap]

/-- Witness for C6: on the all-zero fresh indexer the ratio is 0, and on a
state with own stake 2, delegated 4, allocated 3 the ratio is the allocated
stake over the capacity. -/
theorem allocationRatio_matches_spec_witness :
    Indexer.allocationRatio sampleFreshIndexer = 0 ∧
    Indexer.allocationRatio (Indexer.construct (some sampleBalancedEntity) sampleAddress sampleBlock 0) =
      Indexer.allocatedStake (Indexer.construct (some sampleBalancedEntity) sampleAddress sampleBlock 0) /
        allocationCapacitySpec (Indexer.construct (some sampleBalancedEntity) sampleAddress sampleBlock 0) := by
  constructor
  · exact (allocationRatio_matches_spec sampleFreshIndexer).2.2 rfl rfl
  · refine (allocationRatio_matches_spec _).2.1 ?_
    norm_num [allocationCapacitySpec, Indexer.construct, sampleBalancedEntity,
      freshIndexerEntity, Indexer.ownStake, Indexer.delegatedStake,
      Indexer.isOverDelegated, Indexer.maximumDelegation, zeroBD, sixteenBD]

/-- C7. The `delegationRatio` getter returns exactly 0 whenever `ownStake = 0`
regardless of `delegatedStake`; otherwise it returns
`delegatedStake / maximumDelegation` without clamping, and (for a positive own
stake) it exceeds 1 exactly when the indexer is over-delegated. -/
theorem delegationRatio_matches_spec (i : Indexer) :
    (i.ownStake = 0 → i.delegationRatio = 0) ∧
    (i.ownStake ≠ 0 →
      i.delegationRatio = i.delegatedStake / i.maximumDelegation) ∧
    (0 < i.ownStake → (1 < i.delegationRatio ↔ i.isOverDelegated = true)) := by
  refine ⟨?_, ?_, ?_⟩
  · intro h
    simp [Indexer.delegationRatio, zeroBD, h]
  · intro h
    simp [Indexer.delegationRatio, zeroBD, h]
  · intro h
    have hmax : 0 < i.maximumDelegation := by
      simp only [Indexer.maximumDelegation, sixteenBD]
      positivity
    rw [Indexer.delegationRatio, if_neg (by simpa [zeroBD] using ne_of_gt h)]
    rw [one_lt_div hmax]
    simp [Indexer.isOverDelegated, zeroBD]

/-- Witness for C7: an indexer with own stake 1 and delegated 32 is
over-delegated and its delegation ratio exceeds 1. -/
theorem delegationRatio_matches_spec_witness :
    (0 : ℚ) < Indexer.ownStake (Indexer.construct (some sampleOverDelegatedEntity) sampleAddress sampleBlock 0) ∧
    1 < Indexer.delegationRatio (Indexer.construct (some sampleOverDelegatedEntity) sampleAddress sampleBlock 0) := by
  have hpos : (0 : ℚ) <
      Indexer.ownStake (Indexer.construct (some sampleOverDelegatedEntity) sampleAddress sampleBlock 0) := by
    norm_num [Indexer.construct, Indexer.ownStake, sampleOverDelegatedEntity,
      freshIndexerEntity]
  refine ⟨hpos, ?_⟩
  refine ((delegationRatio_matches_spec _).2.2 hpos).mpr ?_
  norm_num [Indexer.construct, Indexer.isOverDelegated, Indexer.ownStake,
    Indexer.delegatedStake, Indexer.maximumDelegation,
    sampleOverDelegatedEntity, freshIndexerEntity, sixteenBD]

/-- C8. Applying `updateDelegatedStake (+x) 0` with `x > 0` (a
reward-compounding update with zero share delta) to an indexer loaded from a
persisted entity with `delegationPoolShares = n > 0` keeps the share count
fixed and strictly increases the persisted share price
`delegatedStake / delegationPoolShares`. -/
theorem updateDelegatedStake_share_price_increases (e : IndexerEntity)
    (adr : String) (b : Block) (pr x : ℚ) (n : Int)
    (hs : e.delegationPoolShares = some n) (hn : 0 < n) (hx : 0 < x) :
    ((Indexer.construct (some e) adr b pr).updateDelegatedStake x 0).indexerEntity.delegationPoolShares =
      some n ∧
    e.delegatedStake / (n : ℚ) <
      ((Indexer.construct (some e) adr b pr).updateDelegatedStake x 0).indexerEntity.delegatedStake /
        (n : ℚ) := by
  have hshares :
      ((Indexer.construct (some e) adr b pr).updateDelegatedStake x 0).indexerEntity.delegationPoolShares =
        some n := by
    simp [Indexer.updateDelegatedStake_indexerEntity, Indexer.delegationPoolShares,
      Indexer.construct, hs]
  refine ⟨hshares, ?_⟩
  have hd : ((Indexer.construct (some e) adr b pr).updateDelegatedStake x 0).indexerEntity.delegatedStake =
      e.delegatedStake + x := by
    simp [Indexer.updateDelegatedStake_indexerEntity, Indexer.delegatedStake,
      Indexer.construct]
  rw [hd]
  have hn' : (0 : ℚ) < (n : ℚ) := by exact_mod_cast hn
  exact div_lt_div_of_pos_right (by linarith) hn'

/-- Witness for C8: on the fresh indexer entity (one pool share, zero
delegated) the compounding update `+1, 0` raises the persisted share price
from 0 to 1. -/
theorem updateDelegatedStake_share_price_increases_witness :
    (freshIndexerEntity sampleAddress sampleBlock).delegationPoolShares = some 1 ∧
    (0 : Int) < 1 ∧ (0 : ℚ) < 1 ∧
    ((Indexer.construct (some (freshIndexerEntity sampleAddress sampleBlock)) sampleAddress sampleBlock 0).updateDelegatedStake 1 0).indexerEntity.delegationPoolShares =
      some 1 ∧
    (freshIndexerEntity sampleAddress sampleBlock).delegatedStake / ((1 : Int) : ℚ) <
      ((Indexer.construct (some (freshIndexerEntity sampleAddress sampleBlock)) sampleAddress sampleBlock 0).updateDelegatedStake 1 0).indexerEntity.delegatedStake /
        ((1 : Int) : ℚ) := by
  have h := updateDelegatedStake_share_price_increases
    (freshIndexerEntity sampleAddress sampleBlock) sampleAddress sampleBlock 0 1 1
    rfl (by norm_num) (by norm_num)
  exact ⟨rfl, by norm_num, by norm_num, h.1, h.2⟩

/-- C9. On a delegation-parameters-updated event: when the event's
`cooldownBlocks` is 0 the persisted `delegatorParameterCooldownBlock` becomes
null, and when `cooldownBlocks = N > 0` at event block `B` it becomes
`B + N`. -/
theorem handleDelegationParametersUpdated_cooldown (i : Indexer)
    (event : DelegationParametersUpdatedEvent) :
    (event.cooldownBlocks = 0 →
      (i.handleDelegationParametersUpdated event).indexerEntity.delegatorParameterCooldownBlock =
        none) ∧
    (0 < event.cooldownBlocks →
      (i.handleDelegationParametersUpdated event).indexerEntity.delegatorParameterCooldownBlock =
        some (event.blockNumber + event.cooldownBlocks)) := by
  constructor
  · intro h
    simp [Indexer.handleDelegationParametersUpdated, h]
  · intro h
    simp [Indexer.handleDelegationParametersUpdated, ne_of_gt h]

/-- Witness for C9: cooldown 0 clears the field; cooldown 5 at block 100 sets
it to 105. -/
theorem handleDelegationParametersUpdated_cooldown_witness :
    (sampleFreshIndexer.handleDelegationParametersUpdated
        { indexingRewardCut := 0, queryFeeCut := 0, cooldownBlocks := 0, blockNumber := 100 }).indexerEntity.delegatorParameterCooldownBlock =
      none ∧
    (sampleFreshIndexer.handleDelegationParametersUpdated
        { indexingRewardCut := 0, queryFeeCut := 0, cooldownBlocks := 5, blockNumber := 100 }).indexerEntity.delegatorParameterCooldownBlock =
      some 105 := by
  constructor
  · exact (handleDelegationParametersUpdated_cooldown sampleFreshIndexer
      { indexingRewardCut := 0, queryFeeCut := 0, cooldownBlocks := 0, blockNumber := 100 }).1 rfl
  · exact (handleDelegationParametersUpdated_cooldown sampleFreshIndexer
      { indexingRewardCut := 0, queryFeeCut := 0, cooldownBlocks := 5, blockNumber := 100 }).2 (by norm_num)

/-- C3. On a rewards-assigned event with total reward `R` (the
decimal-converted event amount), processed on an indexer loaded from a
persisted entity: when `delegatedStake = 0` the indexer's share is all of `R`
and the persisted `delegatedStake` and `delegationPoolShares` keep their
values; otherwise `indexerShare = R × cut`, `delegatorShare = R -
indexerShare` (so the two sides sum to `R` exactly, for any cut ratio),
`delegatedStake` increases by exactly the delegator share and
`delegationPoolShares` is unchanged. -/
theorem handleRewardsAssigned_reward_split (e : IndexerEntity) (adr : String)
    (b : Block) (pr : ℚ) (amount : Int) (cut : ℚ) (n : Int)
    (hcut : e.indexingRewardCutRatio = some cut)
    (hs : e.delegationPoolShares = some n) :
    (e.delegatedStake = 0 →
      indexerShareOfReward e.delegatedStake cut (tokenAmountToDecimal amount) =
        tokenAmountToDecimal amount ∧
      ((Indexer.construct (some e) adr b pr).handleRewardsAssigned
          { amount := amount }).map (fun j => j.indexerEntity.delegatedStake) =
        some e.delegatedStake ∧
      ((Indexer.construct (some e) adr b pr).handleRewardsAssigned
          { amount := amount }).map (fun j => j.indexerEntity.delegationPoolShares) =
        some (some n)) ∧
    (e.delegatedStake ≠ 0 →
      indexerShareOfReward e.delegatedStake cut (tokenAmountToDecimal amount) =
        tokenAmountToDecimal amount * cut ∧
      delegatorShareOfReward e.delegatedStake cut (tokenAmountToDecimal amount) =
        tokenAmountToDecimal amount -
          tokenAmountToDecimal amount * cut ∧
      indexerShareOfReward e.delegatedStake cut (tokenAmountToDecimal amount) +
          delegatorShareOfReward e.delegatedStake cut (tokenAmountToDecimal amount) =
        tokenAmountToDecimal amount ∧
      ((Indexer.construct (some e) adr b pr).handleRewardsAssigned
          { amount := amount }).map (fun j => j.indexerEntity.delegatedStake) =
        some (e.delegatedStake +
          delegatorShareOfReward e.delegatedStake cut (tokenAmountToDecimal amount)) ∧
      ((Indexer.construct (some e) adr b pr).handleRewardsAssigned
          { amount := amount }).map (fun j => j.indexerEntity.delegationPoolShares) =
        some (some n)) := by
  have hdel : (Indexer.construct (some e) adr b pr).delegatedStake =
      e.delegatedStake := rfl
  constructor
  · intro h0
    refine ⟨by simp [indexerShareOfReward, zeroBD, h0], ?_, ?_⟩
    · simp [Indexer.handleRewardsAssigned, zeroBD, hdel, h0,
        Indexer.updateDelegatedStake_indexerEntity, Indexer.delegatedStake,
        Indexer.construct]
    · simp [Indexer.handleRewardsAssigned, zeroBD, hdel, h0,
        Indexer.updateDelegatedStake_indexerEntity, Indexer.delegationPoolShares,
        Indexer.delegatedStake, Indexer.construct, hs, zeroBI]
  · intro h0
    refine ⟨by simp [indexerShareOfReward, zeroBD, h0], ?_, ?_, ?_, ?_⟩
    · simp [delegatorShareOfReward, zeroBD, h0]
    · simp only [indexerShareOfReward, delegatorShareOfReward, zeroBD, if_neg h0]
      ring
    · simp [Indexer.handleRewardsAssigned, zeroBD, hdel, h0, hcut,
        Indexer.updateDelegatedStake_indexerEntity, Indexer.delegatedStake,
        Indexer.construct]
    · simp [Indexer.handleRewardsAssigned, zeroBD, hdel, h0, hcut,
        Indexer.updateDelegatedStake_indexerEntity, Indexer.delegationPoolShares,
        Indexer.delegatedStake, Indexer.construct, hs, zeroBI]

/-- Witness for C3: an indexer with delegated stake 4, two pool shares and a
1/5 cut receives a 10-token reward: the pool grows to 12 (delegator share 8),
the shares stay at 2, and the two shares of the split sum to 10. -/
theorem handleRewardsAssigned_reward_split_witness :
    sampleDelegatedEntity.indexingRewardCutRatio = some (1 / 5) ∧
    sampleDelegatedEntity.delegationPoolShares = some 2 ∧
    sampleDelegatedEntity.delegatedStake ≠ 0 ∧
    ((Indexer.construct (some sampleDelegatedEntity) sampleAddress sampleBlock 0).handleRewardsAssigned
        { amount := 10 * 10 ^ 18 }).map (fun j => j.indexerEntity.delegatedStake) =
      some 12 ∧
    ((Indexer.construct (some sampleDelegatedEntity) sampleAddress sampleBlock 0).handleRewardsAssigned
        { amount := 10 * 10 ^ 18 }).map (fun j => j.indexerEntity.delegationPoolShares) =
      some (some 2) ∧
    indexerShareOfReward sampleDelegatedEntity.delegatedStake (1 / 5)
        (tokenAmountToDecimal (10 * 10 ^ 18)) +
      delegatorShareOfReward sampleDelegatedEntity.delegatedStake (1 / 5)
        (tokenAmountToDecimal (10 * 10 ^ 18)) =
      tokenAmountToDecimal (10 * 10 ^ 18) := by
  have hne : sampleDelegatedEntity.delegatedStake ≠ 0 := by
    norm_num [sampleDelegatedEntity, freshIndexerEntity]
  have h := (handleRewardsAssigned_reward_split sampleDelegatedEntity
    sampleAddress sampleBlock 0 (10 * 10 ^ 18) (1 / 5) 2 rfl rfl).2 hne
  refine ⟨rfl, rfl, hne, ?_, h.2.2.2.2, h.2.2.1⟩
  rw [h.2.2.2.1]
  norm_num [sampleDelegatedEntity, freshIndexerEntity, delegatorShareOfReward,
    tokenAmountToDecimal, zeroBD]

/-- C10. For every (indexer, delegator) pair: the class id getter derives
`indexer.id ++ "-" ++ delegator.id`; construction keeps a loaded record
untouched (`createdAtTimestamp` is first-write-wins, never overwritten) and
otherwise creates one under the derived id stamped with the current block's
timestamp; and `isCreatedThisBlock` is true exactly when the stored
`createdAtTimestamp` equals the current block's timestamp. -/
theorem delegatedStake_construct_first_write_wins (ie : IndexerEntity)
    (de : DelegatorEntity) (b : Block) (loaded : Option DelegatedStakeEntity) :
    (DelegatedStake.construct ie de b loaded).id = ie.id ++ "-" ++ de.id ∧
    (DelegatedStake.construct ie de b loaded).delegatedStakeEntity =
      loaded.getD
        { id := ie.id ++ "-" ++ de.id
          indexer := ie.id
          delegator := de.id
          createdAtTimestamp := b.timestamp } ∧
    ((DelegatedStake.construct ie de b loaded).isCreatedThisBlock = true ↔
      (DelegatedStake.construct ie de b loaded).delegatedStakeEntity.createdAtTimestamp =
        b.timestamp) := by
  refine ⟨rfl, ?_, ?_⟩
  · cases loaded <;>
      simp [DelegatedStake.construct, initializeDelegatedStakeEntity,
        delegatedStakePairId]
  · simp [DelegatedStake.isCreatedThisBlock, DelegatedStake.construct]

end BadgethIndexer
